import Mathlib

/-!
Shallow embedding of `process_all_pdfs.py` (a PDF → GROBID → DeepL → Word
batch pipeline) together with proofs about the claims of its specification.

Modelling conventions:
* Python strings are Lean `String`s; string helpers (`strip`, `split`,
  `join`, `replace`, prefix/infix tests) are re-implemented structurally
  over `List Char` so that every definition evaluates inside the kernel.
  `strTrim` models Python `str.strip()` on the ASCII whitespace characters
  space, tab, newline and carriage return.
* The two HTTP services (DeepL and GROBID) are modelled as oracle
  functions mapping the request payload to an outcome: either a response
  carrying a status code (plus, for status 200, the decoded useful body)
  or a connection-level exception.
* The filesystem is an association list from paths to file data; a Word
  document is stored as its structured content rather than rendered bytes.
* `Log` records the service requests a run performs, so that claims of the
  form "no service call is made" become statements about the log.
-/

/-- Python truthiness-relevant whitespace test for the characters stripped
by `str.strip()` that occur in this pipeline. -/
def isWs (c : Char) : Bool :=
  c = ' ' || c = '\t' || c = '\n' || c = '\r'

/-- Model of Python `str.strip()` on a character list. -/
def trimChars (l : List Char) : List Char :=
  ((l.dropWhile isWs).reverse.dropWhile isWs).reverse

/-- Model of Python `str.strip()`. -/
def strTrim (s : String) : String := ⟨trimChars s.data⟩

/-- Test `not text or not text.strip()` from `translate_text_via_deepl`:
a string is blank iff it strips to the empty string (the empty string
itself included). -/
def isBlank (s : String) : Bool := strTrim s = ""

/-- Structural prefix test on character lists. -/
def isPrefixChars : List Char → List Char → Bool
  | [], _ => true
  | _ :: _, [] => false
  | a :: as, b :: bs => a = b && isPrefixChars as bs

/-- String prefix test built on `isPrefixChars`. -/
def strStartsWith (s pre : String) : Bool := isPrefixChars pre.data s.data

/-- Substring (infix) test: some suffix of `s` starts with `pat`. -/
def strContains (s pat : String) : Bool :=
  (List.range (s.data.length + 1)).any fun i => isPrefixChars pat.data (s.data.drop i)

/-- Model of Python `full_text.split("\n\n")`: split on the two-character
separator, left to right, non-overlapping, keeping empty pieces. -/
def splitNN : List Char → List (List Char)
  | [] => [[]]
  | '\n' :: '\n' :: rest => [] :: splitNN rest
  | c :: rest =>
    match splitNN rest with
    | [] => [[c]]
    | g :: gs => (c :: g) :: gs

/-- Paragraph split of `translate_long_text`. -/
def split_double_newline (s : String) : List String :=
  (splitNN s.data).map fun l => ⟨l⟩

/-- Model of Python `"\n\n".join(...)` used by `translate_long_text`. -/
def joinNN : List String → String
  | [] => ""
  | [s] => s
  | s :: rest => s ++ "\n\n" ++ joinNN rest

/-- Model of Python `" ".join(...)` used for reference parts. -/
def joinSpace : List String → String
  | [] => ""
  | [s] => s
  | s :: rest => s ++ " " ++ joinSpace rest

/-- Outcome of one DeepL HTTP request in `translate_text_via_deepl`:
either a response with a status code (for status 200 the translated text
decoded from the JSON body) or a connection-level exception. -/
inductive DeepLOutcome
  | response (status : Nat) (translation : String)
  | connectionError
deriving DecidableEq

/-- Sentinel returned by `translate_text_via_deepl` on status 456. -/
def quotaSentinel : String := "[Translation Error: Quota Exceeded]"

/-- Embedding of `translate_text_via_deepl`: blank input returns the empty
string before any request; otherwise one request is made and the result is
the translation on 200, the quota sentinel on 456, and the original input
text on every other status and on a connection error. -/
def translate_text_via_deepl (deepl : String → DeepLOutcome) (text : String) : String :=
  if isBlank text then ""
  else
    match deepl text with
    | DeepLOutcome.response status t =>
      if status = 200 then t
      else if status = 456 then quotaSentinel
      else text
    | DeepLOutcome.connectionError => text

/-- Requests issued by one call of `translate_text_via_deepl`: none for
blank input, exactly one (the input text) otherwise. -/
def translate_text_requests (text : String) : List String :=
  if isBlank text then [] else [text]

/-- Embedding of the loop body of `translate_long_text`: blank paragraphs
are skipped (`continue`), every other paragraph is translated in order. -/
def translate_paragraph_list (deepl : String → DeepLOutcome) : List String → List String
  | [] => []
  | p :: rest =>
    if isBlank p then translate_paragraph_list deepl rest
    else translate_text_via_deepl deepl p :: translate_paragraph_list deepl rest

/-- Embedding of `translate_long_text`: split the body on the blank-line
separator, translate the non-blank paragraphs, rejoin with the separator. -/
def translate_long_text (deepl : String → DeepLOutcome) (full_text : String) : String :=
  joinNN (translate_paragraph_list deepl (split_double_newline full_text))

/-- DeepL requests issued by `translate_long_text`: one per non-blank
paragraph, in order. -/
def translate_paragraph_requests : List String → List String
  | [] => []
  | p :: rest =>
    if isBlank p then translate_paragraph_requests rest
    else translate_text_requests p ++ translate_paragraph_requests rest

/-- Requests issued by one call of `translate_long_text`. -/
def translate_long_text_requests (full_text : String) : List String :=
  translate_paragraph_requests (split_double_newline full_text)

/-- DeepL oracle of an identity translation service: every request
succeeds with status 200 and the translation equal to the input. -/
def idDeepL : String → DeepLOutcome := fun t => DeepLOutcome.response 200 t

/-- Model of `os.path.basename` for slash-separated paths: the part after
the last slash. -/
def basenameOf (s : String) : String :=
  ⟨((s.data.reverse.takeWhile fun c => c ≠ '/').reverse)⟩

/-- Model of Python `s.replace(".pdf", "")`: remove every non-overlapping
occurrence of the four characters of ".pdf", scanning left to right. -/
def stripPdf : List Char → List Char
  | '.' :: 'p' :: 'd' :: 'f' :: rest => stripPdf rest
  | c :: rest => c :: stripPdf rest
  | [] => []

/-- Base filename computed in `process_single_pdf`:
`os.path.basename(pdf_path).replace(".pdf", "")`. -/
def base_filename (pdf_path : String) : String := ⟨stripPdf (basenameOf pdf_path).data⟩

/-- Output directory constant `OUTPUT_XML_DIR` (joined with `/`). -/
def OUTPUT_XML_DIR : String := "output_pdf/xml"

/-- Output directory constant `OUTPUT_DOCX_DIR` (joined with `/`). -/
def OUTPUT_DOCX_DIR : String := "output_pdf/docx"

/-- Path of the cached GROBID XML artifact for an input path. -/
def xml_path_of (pdf_path : String) : String :=
  OUTPUT_XML_DIR ++ "/" ++ base_filename pdf_path ++ ".xml"

/-- Path of the final translated Word artifact for an input path. -/
def docx_path_of (pdf_path : String) : String :=
  OUTPUT_DOCX_DIR ++ "/" ++ base_filename pdf_path ++ "_translated.docx"

/-- Title extraction of `extract_data_from_xml`, over the first header
title element: `none` means the element is absent, `some none` that its
`.text` is `None` (an empty element), `some (some t)` that its text is
`t`. The Python condition `title_node is not None and title_node.text`
is true exactly for `some (some t)` with `t` a non-empty string. -/
def extract_title (node : Option (Option String)) : String :=
  match node with
  | some (some t) => if t = "" then "No Title Found" else strTrim t
  | some none => "No Title Found"
  | none => "No Title Found"

/-- Data `extract_data_from_xml` reads from one `biblStruct` element:
the text of the first descendant title element (`none` when the element
is absent or its text is `None`), the `when` attribute of the first date
element, and the text of the publisher element under `publicationStmt`. -/
structure BiblStruct where
  titleText : Option String
  dateWhen : Option String
  publisherText : Option String
deriving DecidableEq

/-- Parts assembled for one reference entry, in source order: quoted
title, parenthesised year, publisher; a part is kept only when the Python
truthiness test (present and non-empty) passes. -/
def ref_text_parts (bib : BiblStruct) : List String :=
  (match bib.titleText with
   | some t => if t = "" then [] else ["\"" ++ t ++ "\""]
   | none => []) ++
  (match bib.dateWhen with
   | some w => if w = "" then [] else ["(" ++ w ++ ")"]
   | none => []) ++
  (match bib.publisherText with
   | some p => if p = "" then [] else [p]
   | none => [])

/-- One formatted reference entry: bracketed index, then the joined parts
or the literal "Extraction Failed" when no part was found. -/
def format_reference (i : Nat) (bib : BiblStruct) : String :=
  let s := joinSpace (ref_text_parts bib)
  ("[" ++ toString i ++ "] ") ++ (if s = "" then "Extraction Failed" else s)

/-- Numbering loop `for i, bib in enumerate(bib_structs, 1)`. -/
def number_refs (i : Nat) : List BiblStruct → List String
  | [] => []
  | b :: bs => format_reference i b :: number_refs (i + 1) bs

/-- Reference list produced by `extract_data_from_xml`. -/
def extract_references (bibs : List BiblStruct) : List String := number_refs 1 bibs

/-- Outcome of the GROBID HTTP request in `process_single_pdf`: a
response with a status code and body, or a connection-level exception. -/
inductive GrobidOutcome
  | response (status : Nat) (body : String)
  | connectionError
deriving DecidableEq

/-- Result of `extract_data_from_xml` when parsing succeeds. -/
structure Extracted where
  title : String
  body : String
  references : List String
deriving DecidableEq

/-- Contents of a file in the modelled filesystem: XML artifacts are
text, the Word artifact is stored as its structured content (the data
handed to `create_word_document`). -/
inductive FileData
  | text (s : String)
  | docx (jp_title en_title jp_body : String) (references : List String)
deriving DecidableEq

/-- Filesystem model: association list from path to file data, newest
entry first. -/
abbrev FS := List (String × FileData)

/-- Existence test (`os.path.exists`). -/
def fsExists : FS → String → Bool
  | [], _ => false
  | (q, _) :: rest, p => if q = p then true else fsExists rest p

/-- Text read (`open(path).read()`); non-text data reads as empty. -/
def fsRead : FS → String → String
  | [], _ => ""
  | (q, d) :: rest, p =>
    if q = p then (match d with | FileData.text s => s | _ => "") else fsRead rest p

/-- File write: the new entry shadows any older one at the same path. -/
def fsWrite (fs : FS) (p : String) (d : FileData) : FS := (p, d) :: fs

/-- External environment of one run: the GROBID oracle (keyed by the
input path), the DeepL oracle (keyed by the request text), and the XML
parse performed by `extract_data_from_xml` (keyed by the XML content;
`none` models a parse error or, composed with the body check, is the
case the driver abandons). -/
structure Env where
  grobid : String → GrobidOutcome
  deepl : String → DeepLOutcome
  parseXml : String → Option Extracted

/-- Log of the service requests a run performs. -/
structure Log where
  grobidCalls : List String
  deeplCalls : List String
deriving DecidableEq

/-- Log with no requests. -/
def Log.empty : Log := Log.mk [] []

/-- Concatenation of two logs. -/
def Log.append (l1 l2 : Log) : Log :=
  Log.mk (l1.grobidCalls ++ l2.grobidCalls) (l1.deeplCalls ++ l2.deeplCalls)

/-- Stages 2-5 of `process_single_pdf`, entered with the XML content in
hand: parse the XML; abandon the item when parsing fails or the body is
empty; otherwise translate the title and the body and write the Word
artifact. -/
def pdf_stage2 (env : Env) (fs : FS) (xml_content pdf_path : String) (log : Log) : FS × Log :=
  match env.parseXml xml_content with
  | none => (fs, log)
  | some data =>
    if data.body = "" then (fs, log)
    else
      let jp_title := translate_text_via_deepl env.deepl data.title
      let jp_body := translate_long_text env.deepl data.body
      let calls := translate_text_requests data.title ++ translate_long_text_requests data.body
      let fs2 := fsWrite fs (docx_path_of pdf_path)
        (FileData.docx jp_title data.title jp_body data.references)
      (fs2, Log.mk log.grobidCalls (log.deeplCalls ++ calls))

/-- Embedding of `process_single_pdf`: skip the whole item when the Word
artifact exists; reuse a cached XML artifact when present; otherwise call
GROBID, abandoning the item on a non-200 status or a connection error,
and caching the XML on success. -/
def process_single_pdf (env : Env) (fs : FS) (pdf_path : String) : FS × Log :=
  if fsExists fs (docx_path_of pdf_path) then (fs, Log.empty)
  else if fsExists fs (xml_path_of pdf_path) then
    pdf_stage2 env fs (fsRead fs (xml_path_of pdf_path)) pdf_path Log.empty
  else
    match env.grobid pdf_path with
    | GrobidOutcome.connectionError => (fs, Log.mk [pdf_path] [])
    | GrobidOutcome.response status body =>
      if status = 200 then
        pdf_stage2 env (fsWrite fs (xml_path_of pdf_path) (FileData.text body)) body pdf_path
          (Log.mk [pdf_path] [])
      else (fs, Log.mk [pdf_path] [])

/-- Embedding of the driver loop of `main`: process every input path in
order, threading the filesystem and accumulating the log. -/
def main_loop (env : Env) : FS → List String → FS × Log
  | fs, [] => (fs, Log.empty)
  | fs, p :: rest =>
    let r1 := process_single_pdf env fs p
    let r2 := main_loop env r1.1 rest
    (r2.1, Log.append r1.2 r2.2)

/-- DeepL oracle answering status 456 (quota exceeded) for the request
text `bad` and status 200 with translation `tr t` for every other text. -/
def quotaDeepL (bad : String) (tr : String → String) : String → DeepLOutcome :=
  fun t => if t = bad then DeepLOutcome.response 456 "" else DeepLOutcome.response 200 (tr t)

/-- DeepL oracle answering an authentication-failure status 403 on every
request. -/
def authDeepL : String → DeepLOutcome := fun t => DeepLOutcome.response 403 ("T " ++ t)

/-- DeepL oracle answering status 500 on every request. -/
def status500DeepL : String → DeepLOutcome := fun t => DeepLOutcome.response 500 ("T " ++ t)

/-- DeepL oracle answering status 503 on every request. -/
def status503DeepL : String → DeepLOutcome := fun t => DeepLOutcome.response 503 ("T " ++ t)

/-- Demo run environment: GROBID fails at the connection level for
`input_pdf/a.pdf` and answers status 200 with a fixed body for every
other path; DeepL always succeeds; the fixed body parses to a one-body
document and every other content fails to parse. -/
def envC1 : Env :=
  Env.mk
    (fun p => if p = "input_pdf/a.pdf" then GrobidOutcome.connectionError
              else GrobidOutcome.response 200 "xml-of-b")
    (fun t => DeepLOutcome.response 200 ("JP " ++ t))
    (fun s => if s = "xml-of-b" then some (Extracted.mk "Title B" "Body B" []) else none)

/-- Filesystem already holding the final Word artifact for
`input_pdf/a.pdf`. -/
def fsDone : FS :=
  [(docx_path_of "input_pdf/a.pdf", FileData.docx "t" "t" "b" [])]

/-- Prefix test succeeds on an appended extension. -/
theorem isPrefixChars_append (a b : List Char) : isPrefixChars a (a ++ b) = true := by
  induction a with
  | nil => rfl
  | cons c cs ih => simp [isPrefixChars, ih]

/-- A string starts with its own left append factor. -/
theorem strStartsWith_append (p q : String) : strStartsWith (p ++ q) p = true := by
  unfold strStartsWith
  rw [String.data_append]
  exact isPrefixChars_append p.data q.data

/-- The translation loop keeps exactly the non-blank paragraphs in order,
mapping each through any function that agrees with the per-paragraph
translator on non-blank input. -/
theorem translate_paragraph_list_eq_map (deepl : String → DeepLOutcome) (g : String → String)
    (h : ∀ p, isBlank p = false → translate_text_via_deepl deepl p = g p) :
    ∀ ps : List String,
      translate_paragraph_list deepl ps = (ps.filter fun p => !(isBlank p)).map g := by
  intro ps
  induction ps with
  | nil => rfl
  | cons p rest ih =>
    by_cases hb : isBlank p = true
    · simp [translate_paragraph_list, hb, ih]
    · have hb' : isBlank p = false := by
        cases hx : isBlank p
        · rfl
        · exact absurd hx hb
      simp [translate_paragraph_list, hb', ih, h p hb']

/-- C3: the paragraph-batch translator splits on the blank-line separator,
translates exactly the non-blank paragraphs in their original order and
joins the results with the same separator; blank paragraphs are dropped,
so the number of output segments equals the number of non-blank
paragraphs, and with an identity translation the output is exactly the
original non-blank paragraphs, rejoined in order. -/
theorem c3_paragraph_batch (full_text : String) (deepl : String → DeepLOutcome) :
    translate_long_text deepl full_text
      = joinNN (((split_double_newline full_text).filter fun p => !(isBlank p)).map
          (translate_text_via_deepl deepl)) ∧
    translate_long_text idDeepL full_text
      = joinNN ((split_double_newline full_text).filter fun p => !(isBlank p)) ∧
    (translate_paragraph_list deepl (split_double_newline full_text)).length
      = ((split_double_newline full_text).filter fun p => !(isBlank p)).length := by
  refine ⟨?_, ?_, ?_⟩
  · unfold translate_long_text
    rw [translate_paragraph_list_eq_map deepl (translate_text_via_deepl deepl)
      (fun _ _ => rfl)]
  · unfold translate_long_text
    rw [translate_paragraph_list_eq_map idDeepL id ?_, List.map_id]
    intro p hp
    simp [translate_text_via_deepl, idDeepL, hp]
  · rw [translate_paragraph_list_eq_map deepl (translate_text_via_deepl deepl)
      (fun _ _ => rfl), List.length_map]

/-- C4: when the service answers 456 for exactly one paragraph text, that
paragraph's slot in the output carries the quota sentinel (which contains
the "Translation Error" marker and "Quota Exceeded"), every other
non-blank paragraph's slot carries its own translation, and the batch is
not aborted: the output still has one segment per non-blank paragraph. -/
theorem c4_quota_single_paragraph (full_text bad : String) (tr : String → String) :
    translate_long_text (quotaDeepL bad tr) full_text
      = joinNN (((split_double_newline full_text).filter fun p => !(isBlank p)).map
          fun p => if p = bad then quotaSentinel else tr p) ∧
    (translate_paragraph_list (quotaDeepL bad tr) (split_double_newline full_text)).length
      = ((split_double_newline full_text).filter fun p => !(isBlank p)).length ∧
    strContains quotaSentinel "Translation Error" = true ∧
    strContains quotaSentinel "Quota Exceeded" = true := by
  have key : ∀ p, isBlank p = false →
      translate_text_via_deepl (quotaDeepL bad tr) p
        = if p = bad then quotaSentinel else tr p := by
    intro p hp
    by_cases hpb : p = bad
    · subst hpb
      simp [translate_text_via_deepl, quotaDeepL, hp]
    · simp [translate_text_via_deepl, quotaDeepL, hp, hpb]
  refine ⟨?_, ?_, by decide, by decide⟩
  · unfold translate_long_text
    rw [translate_paragraph_list_eq_map (quotaDeepL bad tr) _ key]
  · rw [translate_paragraph_list_eq_map (quotaDeepL bad tr) _ key, List.length_map]

/-- C5 counterexample: on an authentication-failure status (403) the
translator returns the original input text itself, which carries no
"Invalid API Key" marker and is not distinguishable from the input. -/
theorem c5_counterexample :
    translate_text_via_deepl authDeepL "hello" = "hello" ∧
    strContains (translate_text_via_deepl authDeepL "hello") "Invalid API Key" = false := by
  decide

/-- C5 as amended: on an authentication-failure status code (403, neither
200 nor 456) the translator returns the original input text unchanged; no
sentinel is produced. -/
theorem c5_auth_returns_original (deepl : String → DeepLOutcome) (text body : String)
    (hb : isBlank text = false) (hr : deepl text = DeepLOutcome.response 403 body) :
    translate_text_via_deepl deepl text = text := by
  simp [translate_text_via_deepl, hb, hr]

/-- Witness for the amended C5 at a concrete service and input. -/
theorem c5_auth_witness : translate_text_via_deepl authDeepL "hello" = "hello" :=
  c5_auth_returns_original authDeepL "hello" ("T " ++ "hello") (by decide) rfl

/-- C6 counterexample: on status 500 the translator returns the original
input text, which does not embed the status code 500. -/
theorem c6_counterexample :
    translate_text_via_deepl status500DeepL "hello" = "hello" ∧
    strContains (translate_text_via_deepl status500DeepL "hello") "500" = false := by
  decide

/-- C6 as amended: on any non-success status other than 200 and 456 the
translator returns the original input text unchanged; no sentinel
embedding the status code is produced. -/
theorem c6_other_status_returns_original (deepl : String → DeepLOutcome)
    (text body : String) (status : Nat)
    (hb : isBlank text = false) (h200 : status ≠ 200) (h456 : status ≠ 456)
    (hr : deepl text = DeepLOutcome.response status body) :
    translate_text_via_deepl deepl text = text := by
  simp [translate_text_via_deepl, hb, hr, h200, h456]

/-- Witness for the amended C6 at a concrete service and input. -/
theorem c6_other_status_witness : translate_text_via_deepl status503DeepL "hola" = "hola" :=
  c6_other_status_returns_original status503DeepL "hola" ("T " ++ "hola") 503
    (by decide) (by decide) (by decide) rfl

/-- C9: a blank input (empty or whitespace-only) makes the translator
return the empty string with no request issued. -/
theorem c9_blank_input_no_request (deepl : String → DeepLOutcome) (text : String)
    (hb : isBlank text = true) :
    translate_text_via_deepl deepl text = "" ∧ translate_text_requests text = [] := by
  simp [translate_text_via_deepl, translate_text_requests, hb]

/-- Witness for C9 at the empty string and at a whitespace-only string. -/
theorem c9_blank_input_witness :
    (translate_text_via_deepl idDeepL "" = "" ∧ translate_text_requests "" = []) ∧
    (translate_text_via_deepl idDeepL " \t " = ""
      ∧ translate_text_requests " \t " = []) :=
  ⟨c9_blank_input_no_request idDeepL "" (by decide),
   c9_blank_input_no_request idDeepL " \t " (by decide)⟩

/-- The numbering loop yields one entry per bibliography element. -/
theorem number_refs_length (k : Nat) (bibs : List BiblStruct) :
    (number_refs k bibs).length = bibs.length := by
  induction bibs generalizing k with
  | nil => rfl
  | cons b bs ih => simp [number_refs, ih]

/-- Entry `i` of the numbering loop started at `k` formats element `i`
with index `k + i`. -/
theorem number_refs_getD (bibs : List BiblStruct) :
    ∀ (k i : Nat), i < bibs.length →
      (number_refs k bibs).getD i ""
        = format_reference (k + i) (bibs.getD i (BiblStruct.mk none none none)) := by
  induction bibs with
  | nil => intro k i h; exact absurd h (by simp)
  | cons b bs ih =>
    intro k i h
    cases i with
    | zero => simp [number_refs]
    | succ j =>
      have hj : j < bs.length := by simpa using h
      have heq : k + (j + 1) = (k + 1) + j := by omega
      simp only [number_refs, List.getD_cons_succ, heq]
      exact ih (k + 1) j hj

/-- C7: the reference list has one entry per bibliography element, every
entry is prefixed with its 1-based index in brackets (so numbering is
contiguous from 1 regardless of extraction failures), and an element from
which no title, year or publisher part could be assembled yields the
literal "Extraction Failed" after its index. -/
theorem c7_reference_numbering (bibs : List BiblStruct) :
    (extract_references bibs).length = bibs.length ∧
    (∀ i : Fin bibs.length,
      strStartsWith ((extract_references bibs).getD i.1 "")
        ("[" ++ toString (i.1 + 1) ++ "] ") = true) ∧
    (∀ i : Fin bibs.length,
      ref_text_parts (bibs.getD i.1 (BiblStruct.mk none none none)) = [] →
        (extract_references bibs).getD i.1 ""
          = ("[" ++ toString (i.1 + 1) ++ "] ") ++ "Extraction Failed") := by
  refine ⟨number_refs_length 1 bibs, ?_, ?_⟩
  · intro i
    rw [extract_references, number_refs_getD bibs 1 i.1 i.2, format_reference,
      Nat.add_comm 1 i.1]
    exact strStartsWith_append _ _
  · intro i hparts
    rw [extract_references, number_refs_getD bibs 1 i.1 i.2, format_reference,
      Nat.add_comm 1 i.1, hparts]
    rfl

/-- Witness for C7 on a two-element list whose first element has no
extractable part and whose second has a title. -/
theorem c7_reference_numbering_witness :
    (extract_references [BiblStruct.mk none none none,
        BiblStruct.mk (some "T") none none]).getD 0 ""
      = ("[" ++ toString (0 + 1) ++ "] ") ++ "Extraction Failed" :=
  (c7_reference_numbering
      [BiblStruct.mk none none none, BiblStruct.mk (some "T") none none]).2.2
    ⟨0, by decide⟩ (by decide)

/-- C8 counterexample: a present title element whose text is the single
space character yields the empty string, not the "No Title Found"
sentinel, because the Python truthiness test sees a non-empty text and
then strips it to nothing. -/
theorem c8_counterexample :
    extract_title (some (some " ")) = "" ∧
    extract_title (some (some " ")) ≠ "No Title Found" := by
  decide

/-- C8 as amended: the title is the trimmed text of the first header
title element; the "No Title Found" sentinel is produced exactly when the
element is absent, its text is missing, or its text is the empty string,
while a non-empty text (even whitespace-only) is returned trimmed. -/
theorem c8_title_fallback (t : String) (ht : t ≠ "") :
    extract_title none = "No Title Found" ∧
    extract_title (some none) = "No Title Found" ∧
    extract_title (some (some "")) = "No Title Found" ∧
    extract_title (some (some t)) = strTrim t := by
  simp [extract_title, ht]

/-- Witness for the amended C8 at a concrete padded title. -/
theorem c8_title_fallback_witness :
    extract_title none = "No Title Found" ∧
    extract_title (some none) = "No Title Found" ∧
    extract_title (some (some "")) = "No Title Found" ∧
    extract_title (some (some " Hi ")) = strTrim " Hi " :=
  c8_title_fallback " Hi " (by decide)

/-- C2: when the final Word artifact for an item already exists, the item
is skipped whole: the filesystem is returned unchanged and no GROBID or
DeepL request is made. -/
theorem c2_skip_when_docx_exists (env : Env) (fs : FS) (pdf_path : String)
    (h : fsExists fs (docx_path_of pdf_path) = true) :
    process_single_pdf env fs pdf_path = (fs, Log.empty) := by
  simp [process_single_pdf, h]

/-- Witness for C2 on a filesystem already holding the artifact. -/
theorem c2_skip_witness :
    process_single_pdf envC1 fsDone "input_pdf/a.pdf" = (fsDone, Log.empty) :=
  c2_skip_when_docx_exists envC1 fsDone "input_pdf/a.pdf" (by decide)

/-- C1 counterexample: with GROBID unreachable for the first input, the
driver loop still processes the second input: GROBID is called for it and
its Word artifact is produced, so the batch is not terminated. -/
theorem c1_counterexample :
    envC1.grobid "input_pdf/a.pdf" = GrobidOutcome.connectionError ∧
    (main_loop envC1 [] ["input_pdf/a.pdf", "input_pdf/b.pdf"]).2.grobidCalls
      = ["input_pdf/a.pdf", "input_pdf/b.pdf"] ∧
    fsExists (main_loop envC1 [] ["input_pdf/a.pdf", "input_pdf/b.pdf"]).1
      "output_pdf/docx/b_translated.docx" = true := by
  decide

/-- C1 as amended: a connection-level GROBID failure abandons only the
failing item — the filesystem is left unchanged and only that item's
GROBID attempt is logged — and the loop continues, processing the
remaining inputs exactly as it would have from the same state. -/
theorem c1_loop_continues (env : Env) (fs : FS) (p : String) (rest : List String)
    (hconn : env.grobid p = GrobidOutcome.connectionError)
    (hdocx : fsExists fs (docx_path_of p) = false)
    (hxml : fsExists fs (xml_path_of p) = false) :
    (main_loop env fs (p :: rest)).1 = (main_loop env fs rest).1 ∧
    (main_loop env fs (p :: rest)).2.grobidCalls
      = p :: (main_loop env fs rest).2.grobidCalls ∧
    (main_loop env fs (p :: rest)).2.deeplCalls
      = (main_loop env fs rest).2.deeplCalls := by
  have hp : process_single_pdf env fs p = (fs, Log.mk [p] []) := by
    simp [process_single_pdf, hdocx, hxml, hconn]
  simp [main_loop, hp, Log.append]

/-- Witness for the amended C1 on the demo environment. -/
theorem c1_loop_continues_witness :
    (main_loop envC1 [] ["input_pdf/a.pdf", "input_pdf/b.pdf"]).1
      = (main_loop envC1 [] ["input_pdf/b.pdf"]).1 ∧
    (main_loop envC1 [] ["input_pdf/a.pdf", "input_pdf/b.pdf"]).2.grobidCalls
      = "input_pdf/a.pdf" :: (main_loop envC1 [] ["input_pdf/b.pdf"]).2.grobidCalls ∧
    (main_loop envC1 [] ["input_pdf/a.pdf", "input_pdf/b.pdf"]).2.deeplCalls
      = (main_loop envC1 [] ["input_pdf/b.pdf"]).2.deeplCalls :=
  c1_loop_continues envC1 [] "input_pdf/a.pdf" ["input_pdf/b.pdf"]
    (by decide) (by decide) (by decide)

/-- C10: deriving the base filename removes every occurrence of ".pdf"
from the basename, not only a trailing extension, so distinct input names
differing only in extra ".pdf" occurrences collide on both the XML and
the Word artifact paths. -/
theorem c10_pdf_collision :
    base_filename "a.pdf" = "a" ∧
    base_filename "a.pdf.pdf" = "a" ∧
    base_filename "report.pdfv2.pdf" = "reportv2" ∧
    ("a.pdf" : String) ≠ "a.pdf.pdf" ∧
    xml_path_of "input_pdf/a.pdf" = xml_path_of "input_pdf/a.pdf.pdf" ∧
    docx_path_of "input_pdf/a.pdf" = docx_path_of "input_pdf/a.pdf.pdf" := by
  decide
